import Mathlib

/-!
Shallow embedding of `src/bot.py` (a Discord bot querying the speedrun.com
REST API), for verifying the natural-language specification of the repository.

Modelling conventions:
* JSON documents are the inductive `Json` below; Python dict/list traversal
  primitives (`d[k]`, `d.get(k, default)`, `l[i]`, iteration, truthiness) are
  modelled by total Lean functions returning `Except PyExn _`, where the
  `.error` constructor stands for a Python exception propagating out of the
  code under scrutiny (the bot installs no exception handler around any of the
  modelled fragments).
* The network is an oracle: a function `String → Nat → HttpEvent` mapping a
  URL and an attempt index (the bot retries the same URL) to either an HTTP
  response or a raised transport exception.  A deterministic oracle models
  "unchanged upstream state".
* Each function that performs network I/O threads a running counter of HTTP
  requests actually issued, so that claims about network-call counts and
  caching are statable.
* `time.sleep` is modelled by recording the slept duration; Python's
  `time.sleep` raises `ValueError` on a negative argument, which the model
  reproduces.
-/

set_option autoImplicit false

namespace SpeedrunBot

/-- Python exceptions that the modelled fragments of `bot.py` can raise. -/
inductive PyExn where
  | transport
  | valueError
  | jsonDecode
  | keyError
  | typeError
  | indexError
  | attributeError
deriving DecidableEq

/-- JSON values as traversed by `bot.py`.  Python `None` and JSON `null` are
both modelled by `.null` (both are falsy, both lack `.get`). -/
inductive Json where
  | null : Json
  | b : Bool → Json
  | num : Int → Json
  | str : String → Json
  | arr : List Json → Json
  | obj : List (String × Json) → Json

/-- Python truthiness (`if not data:` etc.) on the modelled values. -/
def pyFalsy : Json → Bool
  | .null => true
  | .b bv => !bv
  | .num n => n == 0
  | .str s => s == ""
  | .arr xs => xs.isEmpty
  | .obj fs => fs.isEmpty

/-- Python `d.get(k, default)`: only dicts have `.get`; calling it on `None`,
a list, a string, ... raises `AttributeError`. -/
def pyGet (j : Json) (k : String) (dflt : Json) : Except PyExn Json :=
  match j with
  | .obj fs =>
    match fs.find? (fun p => p.1 == k) with
    | some p => .ok p.2
    | none => .ok dflt
  | _ => .error .attributeError

/-- Python `d[k]` with a string key: `KeyError` when the key is absent,
`TypeError` when the value is not subscriptable by a string. -/
def pyIndexS (j : Json) (k : String) : Except PyExn Json :=
  match j with
  | .obj fs =>
    match fs.find? (fun p => p.1 == k) with
    | some p => .ok p.2
    | none => .error .keyError
  | _ => .error .typeError

/-- Python `l[i]` with a non-negative integer index on a list:
`IndexError` when out of range, `TypeError` on non-list values
(the code only ever indexes the modelled lists by `0`). -/
def pyIndexN (j : Json) (i : Nat) : Except PyExn Json :=
  match j with
  | .arr xs =>
    match xs.get? i with
    | some v => .ok v
    | none => .error .indexError
  | _ => .error .typeError

/-- Python iteration `for x in j`: lists yield elements, dicts yield keys,
strings yield one-character strings; other values raise `TypeError`. -/
def pyIter (j : Json) : Except PyExn (List Json) :=
  match j with
  | .arr xs => .ok xs
  | .obj fs => .ok (fs.map (fun p => Json.str p.1))
  | .str s => .ok (s.toList.map (fun c => Json.str (String.singleton c)))
  | _ => .error .typeError

/-- Python `j == s` comparing a JSON value against a string literal:
true exactly for an equal string (Python `==` across types is `False`,
not an error). -/
def pyEqStr (j : Json) (s : String) : Bool :=
  match j with
  | .str t => t == s
  | _ => false

/-- Model of Python `str(x)` as used for f-string URL interpolation.
Exact for strings and integers (the only cases the bot's data exercises);
other values get a fixed placeholder rendering. -/
def pyStr : Json → String
  | .str s => s
  | .num n => toString n
  | .null => "None"
  | .b true => "True"
  | .b false => "False"
  | .arr _ => "<list>"
  | .obj _ => "<dict>"

/-- ASCII lowering of one character, the part of Python `str.lower()` the
bot's data exercises. -/
def pyLowerChar (c : Char) : Char :=
  if 65 ≤ c.toNat ∧ c.toNat ≤ 90 then Char.ofNat (c.toNat + 32) else c

/-- Model of Python `s.lower()` (ASCII-exact; the identifiers and category
names the bot handles are ASCII). -/
def pyLower (s : String) : String :=
  String.mk (s.data.map pyLowerChar)

/-- The numeric value of a non-empty all-digit character list. -/
def digitsVal : List Char → Option Nat
  | [] => none
  | cs =>
    if cs.all (fun c => 48 ≤ c.toNat && c.toNat ≤ 57) then
      some (cs.foldl (fun a c => a * 10 + (c.toNat - 48)) 0)
    else none

/-- Model of Python `int(s)` on a string: `some n` when `s` is an optionally
signed decimal numeral, `none` when `int` raises `ValueError`.  (Python also
strips surrounding whitespace and allows `_` digit separators; no header in
the modelled scenarios uses either.) -/
def pyToInt? (s : String) : Option Int :=
  match s.data with
  | [] => none
  | c :: rest =>
    if c = '-' then (digitsVal rest).map (fun m => -(m : Int))
    else if c = '+' then (digitsVal rest).map (fun m => (m : Int))
    else (digitsVal (c :: rest)).map (fun m => (m : Int))

/-- `fetch_data_with_retry(url)` returning `None` is conflated with JSON
`null` by the callers (`if not data:`), exactly as in Python. -/
def jOfOpt : Option Json → Json
  | none => Json.null
  | some j => j

/-- Python `"k" in d` on a dict.  (Only applied after `d` was successfully
indexed, hence is known to be a dict.) -/
def jsonHasKey (j : Json) (k : String) : Bool :=
  match j with
  | .obj fs => fs.any (fun p => p.1 == k)
  | _ => false

/-- One attempt's outcome at the network boundary: an HTTP response
(status, optional `Retry-After` header, and a body, where `none` stands for
a body that fails JSON decoding), or `requests.get` raising a transport
exception. -/
inductive HttpEvent where
  | resp (status : Nat) (retryAfter : Option String) (body : Option Json)
  | raiseTransport

/-- Observable outcome of one `fetch_data_with_retry` call: the returned
value (or the Python exception that escaped), the number of HTTP requests
issued, and the sequence of `time.sleep` durations (seconds). -/
structure FetchTrace where
  result : Except PyExn (Option Json)
  requests : Nat
  sleeps : List Int

/-- The retry loop body of `fetch_data_with_retry` (bot.py lines 41-52):
first argument is the number of loop iterations remaining (`range(3)` starts
at 3), second is the attempt index used to consult the oracle.

```
for attempt in range(3):
    response = requests.get(url)
    if response.status_code == 200:
        return response.json()
    elif response.status_code == 429:
        retry_after = int(response.headers.get("Retry-After", 5))
        time.sleep(retry_after)
    else:
        break
return None
```
-/
def fetchGo (ev : Nat → HttpEvent) : Nat → Nat → FetchTrace
  | 0, _ => ⟨.ok none, 0, []⟩
  | n+1, k =>
    match ev k with
    | .raiseTransport => ⟨.error .transport, 1, []⟩
    | .resp status ra body =>
      if status = 200 then
        match body with
        | some j => ⟨.ok (some j), 1, []⟩
        | none => ⟨.error .jsonDecode, 1, []⟩
      else if status = 429 then
        match ra with
        | none =>
          let r := fetchGo ev n (k+1)
          ⟨r.result, r.requests + 1, (5 : Int) :: r.sleeps⟩
        | some s =>
          match pyToInt? s with
          | some v =>
            if v < 0 then ⟨.error .valueError, 1, []⟩
            else
              let r := fetchGo ev n (k+1)
              ⟨r.result, r.requests + 1, v :: r.sleeps⟩
          | none => ⟨.error .valueError, 1, []⟩
      else ⟨.ok none, 1, []⟩

/-- `fetch_data_with_retry(url)`, with the oracle already specialised to the
URL being fetched. -/
def fetch_data_with_retry (ev : Nat → HttpEvent) : FetchTrace :=
  fetchGo ev 3 0

/-- Integer-parseability test on an optional `Retry-After` header: absent, or
present with a non-negative integer value (the regime in which the retry loop
neither returns a body nor raises). -/
def raOk : Option String → Bool
  | none => true
  | some s =>
    match pyToInt? s with
    | some v => decide (0 ≤ v)
    | none => false

/-- An attempt outcome that is an HTTP response, is not a success, and — when
it is a throttling response — carries an absent or well-formed `Retry-After`
header, so that the loop neither returns a body nor raises on it. -/
def cleanNon200 : HttpEvent → Bool
  | .resp status ra _ => !(status == 200) && (!(status == 429) || raOk ra)
  | .raiseTransport => false

/-- `SPEEDRUN_API_URL` (bot.py line 12). -/
def SPEEDRUN_API_URL : String := "https://www.speedrun.com/api/v1"

/-- The static game table `GAME_IDS` (bot.py lines 15-22), in source order. -/
def GAME_IDS : List (String × String) :=
  [("mc3remix", "midnight_club_3_dub_edition_remix"),
   ("mc3dub", "midnight_club_3_dub_edition"),
   ("mc2", "mc2"),
   ("mc1", "midnight_club_street_racing"),
   ("mcla", "midnight_club_los_angeles"),
   ("mcla_remix", "midnight_club_los_angeles_remix")]

/-- Python dict insertion with string keys (later assignment to an existing
key overwrites in place, new keys append), as performed by the dict
comprehension in `fetch_categories`. -/
def dictInsert (d : List (String × Json)) (k : String) (v : Json) :
    List (String × Json) :=
  if d.any (fun p => p.1 == k) then
    d.map (fun p => if p.1 == k then (k, v) else p)
  else d ++ [(k, v)]

/-- The dict comprehension `\x7bcat["name"].lower(): cat["id"] for cat in
categories\x7d` of `fetch_categories` (bot.py line 67).  `.lower()` on a
non-string raises `AttributeError`. -/
def catDictBuild : List Json → List (String × Json) →
    Except PyExn (List (String × Json))
  | [], acc => .ok acc
  | cat :: rest, acc =>
    match pyIndexS cat "name" with
    | .error e => .error e
    | .ok nm =>
      match nm with
      | .str s =>
        match pyIndexS cat "id" with
        | .error e => .error e
        | .ok cid => catDictBuild rest (dictInsert acc (pyLower s) cid)
      | _ => .error .attributeError

/-- The part of `fetch_categories` (bot.py lines 60-67) after the network
call, applied to the fetch's trace; the request count is passed through. -/
def fetchCategoriesAfter (tr : FetchTrace) :
    Except PyExn (List (String × Json)) × Nat :=
  match tr.result with
  | .error e => (.error e, tr.requests)
  | .ok odata =>
    if pyFalsy (jOfOpt odata) then (.ok [], tr.requests)
    else
      match pyGet (jOfOpt odata) "data" (Json.arr []) with
      | .error e => (.error e, tr.requests)
      | .ok cats =>
        match pyIter cats with
        | .error e => (.error e, tr.requests)
        | .ok catList =>
          match catDictBuild catList [] with
          | .error e => (.error e, tr.requests)
          | .ok d => (.ok d, tr.requests)

/-- `fetch_categories(game_id)` (bot.py lines 60-67): one fetch of the
category-listing endpoint, then the dict comprehension.  Returns the
name-to-identifier mapping (or escaped exception) and the number of HTTP
requests issued by this call. -/
def fetch_categories (net : String → Nat → HttpEvent) (game_id : String) :
    Except PyExn (List (String × Json)) × Nat :=
  fetchCategoriesAfter
    (fetch_data_with_retry
      (net (SPEEDRUN_API_URL ++ "/games/" ++ game_id ++ "/categories")))

/-- Total HTTP requests issued by two sequential `fetch_categories` calls for
the same game.  `bot.py` defines no cache and `fetch_categories` reads no
mutable state, so the total across a sequence of calls is the sum of each
call's count. -/
def fetch_categories_twice_requests (net : String → Nat → HttpEvent)
    (game_id : String) : Nat :=
  (fetch_categories net game_id).2 + (fetch_categories net game_id).2

/-- `top_count = 5 if top.lower() == "top5" else 1` (bot.py line 99). -/
def topCount (top : String) : Nat :=
  if pyLower top == "top5" then 5 else 1

/-- Normalization of one leaderboard entry (bot.py lines 111-113):

```
player = run["run"]["players"][0].get("name", "Unknown")
time = run["run"]["times"]["primary_t"]
video = run["run"].get("videos", \x7b\x7d).get("links", [\x7b"uri": "No video"\x7d])[0]["uri"]
```

Returns `(player, time, video)` or the Python exception raised. -/
def formatRun (run : Json) : Except PyExn (Json × Json × Json) :=
  match pyIndexS run "run" with
  | .error e => .error e
  | .ok r =>
    match pyIndexS r "players" with
    | .error e => .error e
    | .ok players =>
      match pyIndexN players 0 with
      | .error e => .error e
      | .ok p0 =>
        match pyGet p0 "name" (Json.str "Unknown") with
        | .error e => .error e
        | .ok player =>
          match pyIndexS r "times" with
          | .error e => .error e
          | .ok times =>
            match pyIndexS times "primary_t" with
            | .error e => .error e
            | .ok t =>
              match pyGet r "videos" (Json.obj []) with
              | .error e => .error e
              | .ok vobj =>
                match pyGet vobj "links"
                    (Json.arr [Json.obj [("uri", Json.str "No video")]]) with
                | .error e => .error e
                | .ok links =>
                  match pyIndexN links 0 with
                  | .error e => .error e
                  | .ok l0 =>
                    match pyIndexS l0 "uri" with
                    | .error e => .error e
                    | .ok video => .ok (player, t, video)

/-- One presented leaderboard line of the `speedrun` command: the `#rank`
number and the three normalized fields. -/
structure RunEntry where
  rank : Nat
  player : Json
  time : Json
  video : Json

/-- The presentation loop `for i, run in enumerate(runs[:top_count])`
(bot.py lines 110-115), already restricted to the sliced list; the first
argument is the running `i`. -/
def buildEntries : Nat → List Json → Except PyExn (List RunEntry)
  | _, [] => .ok []
  | i, run :: rest =>
    match formatRun run with
    | .error e => .error e
    | .ok pv =>
      match buildEntries (i+1) rest with
      | .error e => .error e
      | .ok es => .ok (⟨i + 1, pv.1, pv.2.1, pv.2.2⟩ :: es)

/-- The run entries presented by the `speedrun` command for an upstream run
list `runs` and a computed `top_count`: the loop over `runs[:top_count]`
with ranks `#(i+1)`. -/
def speedrunEntries (runs : List Json) (top_count : Nat) :
    Except PyExn (List RunEntry) :=
  buildEntries 0 (runs.take top_count)

/-- Python `==` between two hashable JSON scalars, as used by `set`
membership.  (`runner_ids.add` is only ever reached with such scalars; the
bot's ids are strings.) -/
def scalarEq : Json → Json → Bool
  | .null, .null => true
  | .b x, .b y => x == y
  | .num x, .num y => x == y
  | .str x, .str y => x == y
  | _, _ => false

/-- `runner_ids.add(x)` on the model of the Python `set` (a list in first-
insertion order, which fixes one iteration order for the set): adding an
unhashable value (list/dict) raises `TypeError`, adding a present value is a
no-op, otherwise the value is appended. -/
def setAdd (s : List Json) (x : Json) : Except PyExn (List Json) :=
  match x with
  | .arr _ => .error .typeError
  | .obj _ => .error .typeError
  | _ => .ok (if s.any (fun y => scalarEq y x) then s else s ++ [x])

/-- No two elements of the list are Python-equal scalars (the invariant a
Python `set` maintains). -/
def distinctScalars : List Json → Bool
  | [] => true
  | x :: rest => rest.all (fun y => !scalarEq x y) && distinctScalars rest

/-- The inner player loop of the `runners` command (bot.py lines 143-145):

```
for player in run["run"]["players"]:
    if player["rel"] == "user":
        runner_ids.add(player["id"])
```
-/
def addPlayers : List Json → List Json → Except PyExn (List Json)
  | [], acc => .ok acc
  | p :: rest, acc =>
    match pyIndexS p "rel" with
    | .error e => .error e
    | .ok rel =>
      if pyEqStr rel "user" then
        match pyIndexS p "id" with
        | .error e => .error e
        | .ok i =>
          match setAdd acc i with
          | .error e => .error e
          | .ok acc2 => addPlayers rest acc2
      else addPlayers rest acc

/-- The run loop of the `runners` command (bot.py lines 142-145). -/
def collectFromRuns : List Json → List Json → Except PyExn (List Json)
  | [], acc => .ok acc
  | run :: rest, acc =>
    match pyIndexS run "run" with
    | .error e => .error e
    | .ok r =>
      match pyIndexS r "players" with
      | .error e => .error e
      | .ok players =>
        match pyIter players with
        | .error e => .error e
        | .ok pl =>
          match addPlayers pl acc with
          | .error e => .error e
          | .ok acc2 => collectFromRuns rest acc2

/-- The category loop of the `runners` command (bot.py lines 137-145): for
each category, fetch its full leaderboard and accumulate the ids of players
whose relation is `"user"`.  Threads the HTTP request counter. -/
def collectCatIds (net : String → Nat → HttpEvent) (game_id : String) :
    List Json → List Json → Nat → Except PyExn (List Json) × Nat
  | [], acc, n => (.ok acc, n)
  | cat :: rest, acc, n =>
    match pyIndexS cat "id" with
    | .error e => (.error e, n)
    | .ok cid =>
      let tr := fetch_data_with_retry
        (net (SPEEDRUN_API_URL ++ "/leaderboards/" ++ game_id ++
          "/category/" ++ pyStr cid))
      let n1 := n + tr.requests
      match tr.result with
      | .error e => (.error e, n1)
      | .ok old =>
        if pyFalsy (jOfOpt old) then collectCatIds net game_id rest acc n1
        else
          match pyIndexS (jOfOpt old) "data" with
          | .error e => (.error e, n1)
          | .ok d =>
            match pyIndexS d "runs" with
            | .error e => (.error e, n1)
            | .ok runs =>
              match pyIter runs with
              | .error e => (.error e, n1)
              | .ok runList =>
                match collectFromRuns runList acc with
                | .error e => (.error e, n1)
                | .ok acc2 => collectCatIds net game_id rest acc2 n1

/-- The name-resolution loop of the `runners` command (bot.py lines
147-152): one `users/{id}` fetch per collected id, appending the
international display name when the fetch yields truthy data. -/
def resolveNames (net : String → Nat → HttpEvent) :
    List Json → List Json → Nat → Except PyExn (List Json) × Nat
  | [], acc, n => (.ok acc, n)
  | rid :: rest, acc, n =>
    let tr := fetch_data_with_retry
      (net (SPEEDRUN_API_URL ++ "/users/" ++ pyStr rid))
    let n1 := n + tr.requests
    match tr.result with
    | .error e => (.error e, n1)
    | .ok oud =>
      if pyFalsy (jOfOpt oud) then resolveNames net rest acc n1
      else
        match pyIndexS (jOfOpt oud) "data" with
        | .error e => (.error e, n1)
        | .ok d =>
          match pyIndexS d "names" with
          | .error e => (.error e, n1)
          | .ok ns =>
            match pyIndexS ns "international" with
            | .error e => (.error e, n1)
            | .ok intl => resolveNames net rest (acc ++ [intl]) n1

/-- `runners` from the first fetch's trace onwards (factored out so that the
trace can be reasoned about separately). -/
def runnersAfter (net : String → Nat → HttpEvent) (game_id : String)
    (tr : FetchTrace) : Except PyExn (Option (List Json)) × Nat :=
  match tr.result with
  | .error e => (.error e, tr.requests)
  | .ok odata =>
    if pyFalsy (jOfOpt odata) then (.ok none, tr.requests)
    else
      match pyIndexS (jOfOpt odata) "data" with
      | .error e => (.error e, tr.requests)
      | .ok cats =>
        match pyIter cats with
        | .error e => (.error e, tr.requests)
        | .ok catList =>
          match collectCatIds net game_id catList [] tr.requests with
          | (.error e, n2) => (.error e, n2)
          | (.ok ids, n2) =>
            match resolveNames net ids [] n2 with
            | (.error e, n3) => (.error e, n3)
            | (.ok names, n3) =>
              if names.isEmpty then (.ok none, n3) else (.ok (some names), n3)

/-- The body of the `runners` command after the game key resolved (bot.py
lines 127-158): fetch the category list, collect deduplicated user ids
across all category leaderboards, then resolve display names.  The result is
`none` on the early "no runners found" reply paths and `some roster`
otherwise; the second component counts HTTP requests. -/
def runnersCore (net : String → Nat → HttpEvent) (game_id : String) :
    Except PyExn (Option (List Json)) × Nat :=
  runnersAfter net game_id
    (fetch_data_with_retry
      (net (SPEEDRUN_API_URL ++ "/leaderboards/" ++ game_id ++ "/categories")))

/-- The `runners` command (bot.py lines 120-158), from the user-supplied
game key: the `GAME_IDS` lookup issues no request; an unknown key replies
without fetching. -/
def runners (net : String → Nat → HttpEvent) (game : String) :
    Except PyExn (Option (List Json)) × Nat :=
  match GAME_IDS.lookup (pyLower game) with
  | none => (.ok none, 0)
  | some game_id => runnersCore net game_id

/-- Total HTTP requests issued by two sequential `runners` calls for the
same game.  `bot.py` defines no roster cache and `runners` reads no mutable
state, so the total across two sequential calls is the sum of each call's
count. -/
def runnersTwiceRequests (net : String → Nat → HttpEvent) (game : String) :
    Nat :=
  (runners net game).2 + (runners net game).2

/-- `next((name for name, game_id in GAME_IDS.items() if game_id == run_game),
"Unknown Game")` (bot.py line 182): the first table key whose upstream id
equals the run's game field, else the literal fallback. -/
def gameNameOf (gid : Json) : String :=
  match GAME_IDS.find? (fun p => pyEqStr gid p.2) with
  | some p => p.1
  | none => "Unknown Game"

/-- `category_data["data"]["name"] if category_data else "Unknown Category"`
(bot.py line 186), applied to the fetched category document (`None` is
falsy). -/
def categoryNameOf (cd : Json) : Except PyExn Json :=
  if pyFalsy cd then .ok (Json.str "Unknown Category")
  else
    match pyIndexS cd "data" with
    | .error e => .error e
    | .ok d => pyIndexS d "name"

/-- `run["videos"]["links"][0]["uri"] if "videos" in run else "No video"`
(bot.py line 188). -/
def profileVideo (run : Json) : Except PyExn Json :=
  if jsonHasKey run "videos" then
    match pyIndexS run "videos" with
    | .error e => .error e
    | .ok v =>
      match pyIndexS v "links" with
      | .error e => .error e
      | .ok l =>
        match pyIndexN l 0 with
        | .error e => .error e
        | .ok l0 => pyIndexS l0 "uri"
  else .ok (Json.str "No video")

/-- One joined record of the `runner` profile command. -/
structure ProfileEntry where
  gameName : String
  catName : Json
  time : Json
  video : Json

/-- The per-run loop of the `runner` command (bot.py lines 180-190): for
every run, resolve the game name from the static table, fetch
`categories/{category_id}` (one fetch per run), resolve the category name
with the `"Unknown Category"` fallback, and normalize time and video.
Threads the HTTP request counter. -/
def profileRuns (net : String → Nat → HttpEvent) :
    List Json → Nat → Except PyExn (List ProfileEntry) × Nat
  | [], n => (.ok [], n)
  | run :: rest, n =>
    match pyIndexS run "game" with
    | .error e => (.error e, n)
    | .ok gid =>
      match pyIndexS run "category" with
      | .error e => (.error e, n)
      | .ok cid =>
        let tr := fetch_data_with_retry
          (net (SPEEDRUN_API_URL ++ "/categories/" ++ pyStr cid))
        let n1 := n + tr.requests
        match tr.result with
        | .error e => (.error e, n1)
        | .ok ocd =>
          match categoryNameOf (jOfOpt ocd) with
          | .error e => (.error e, n1)
          | .ok cname =>
            match pyIndexS run "times" with
            | .error e => (.error e, n1)
            | .ok times =>
              match pyIndexS times "primary_t" with
              | .error e => (.error e, n1)
              | .ok t =>
                match profileVideo run with
                | .error e => (.error e, n1)
                | .ok v =>
                  match profileRuns net rest n1 with
                  | (.error e, n2) => (.error e, n2)
                  | (.ok es, n2) =>
                    (.ok (⟨gameNameOf gid, cname, t, v⟩ :: es), n2)

/- Concrete JSON documents and network oracles used to evaluate the model at
specific inputs (counterexamples and witnesses). -/

/-- A player embedded as a registered account. -/
def playerUser (u : String) : Json :=
  Json.obj [("rel", Json.str "user"), ("id", Json.str u)]

/-- A player embedded as a guest (no account id). -/
def playerGuest (nm : String) : Json :=
  Json.obj [("rel", Json.str "guest"), ("name", Json.str nm)]

/-- A leaderboard run wrapper holding a player list. -/
def runWithPlayers (ps : List Json) : Json :=
  Json.obj [("run", Json.obj [("players", Json.arr ps)])]

/-- A leaderboard document with the given runs. -/
def lbBody (runs : List Json) : Json :=
  Json.obj [("data", Json.obj [("runs", Json.arr runs)])]

/-- A user document with the given international display name. -/
def userBody (nm : String) : Json :=
  Json.obj [("data", Json.obj [("names", Json.obj [("international", Json.str nm)])])]

/-- A categories document with one category named `Any%` and id `c1`. -/
def catBody : Json :=
  Json.obj [("data", Json.arr [Json.obj [("name", Json.str "Any%"),
    ("id", Json.str "c1")]])]

/-- Oracle: every request immediately succeeds with the `catBody` document. -/
def netCat : String → Nat → HttpEvent :=
  fun _ _ => HttpEvent.resp 200 none (some catBody)

/-- Oracle for the `runners` scenario: one category `c1`, whose leaderboard
has a single run by user `u1`; `users/u1` is named Alice. -/
def net2 : String → Nat → HttpEvent := fun url _ =>
  if url = SPEEDRUN_API_URL ++ "/leaderboards/mc2/categories" then
    HttpEvent.resp 200 none
      (some (Json.obj [("data", Json.arr [Json.obj [("id", Json.str "c1")]])]))
  else if url = SPEEDRUN_API_URL ++ "/leaderboards/mc2/category/c1" then
    HttpEvent.resp 200 none (some (lbBody [runWithPlayers [playerUser "u1"]]))
  else if url = SPEEDRUN_API_URL ++ "/users/u1" then
    HttpEvent.resp 200 none (some (userBody "Alice"))
  else HttpEvent.resp 404 none none

/-- Oracle for the duplicate-name roster scenario: one category `c1`; its
leaderboard has one run by `u1` plus a guest, and one run by `u2` and (again)
`u1`; the two distinct accounts `u1` and `u2` are both named Alice. -/
def netC6 : String → Nat → HttpEvent := fun url _ =>
  if url = SPEEDRUN_API_URL ++ "/leaderboards/mc2/categories" then
    HttpEvent.resp 200 none
      (some (Json.obj [("data", Json.arr [Json.obj [("id", Json.str "c1")]])]))
  else if url = SPEEDRUN_API_URL ++ "/leaderboards/mc2/category/c1" then
    HttpEvent.resp 200 none
      (some (lbBody [runWithPlayers [playerUser "u1", playerGuest "Greg"],
        runWithPlayers [playerUser "u2", playerUser "u1"]]))
  else if url = SPEEDRUN_API_URL ++ "/users/u1" then
    HttpEvent.resp 200 none (some (userBody "Alice"))
  else if url = SPEEDRUN_API_URL ++ "/users/u2" then
    HttpEvent.resp 200 none (some (userBody "Alice"))
  else HttpEvent.resp 404 none none

/-- Oracle for the profile scenario: `categories/c1` resolves to a category
named `4Lap`; everything else is a 404. -/
def netC9 : String → Nat → HttpEvent := fun url _ =>
  if url = SPEEDRUN_API_URL ++ "/categories/c1" then
    HttpEvent.resp 200 none
      (some (Json.obj [("data", Json.obj [("name", Json.str "4Lap")])]))
  else HttpEvent.resp 404 none none

/-- A submitted run of game `mc2` in category `c1` with no video field. -/
def runC9 : Json :=
  Json.obj [("game", Json.str "mc2"), ("category", Json.str "c1"),
    ("times", Json.obj [("primary_t", Json.num 95)])]

/-- The profile entry `runC9` resolves to under `netC9`. -/
def entryC9 : ProfileEntry :=
  ⟨"mc2", Json.str "4Lap", Json.num 95, Json.str "No video"⟩

/-- A leaderboard run whose player carries no `name` field and whose video
link is present. -/
def runTop : Json :=
  Json.obj [("run", Json.obj
    [("players", Json.arr [playerUser "u1"]),
     ("times", Json.obj [("primary_t", Json.num 100)]),
     ("videos", Json.obj [("links", Json.arr [Json.obj [("uri", Json.str "vid1")]])])])]

/-- A leaderboard run with a named player, a time, and no `videos` key. -/
def runNoVideos : Json :=
  Json.obj [("run", Json.obj
    [("players", Json.arr [Json.obj [("name", Json.str "Bob")]]),
     ("times", Json.obj [("primary_t", Json.num 42)])])]

/-- As `runNoVideos`, but with the `videos` field present and `null` —
the shape the upstream API actually returns for a run without video. -/
def runNullVideos : Json :=
  Json.obj [("run", Json.obj
    [("players", Json.arr [Json.obj [("name", Json.str "Bob")]]),
     ("times", Json.obj [("primary_t", Json.num 42)]),
     ("videos", Json.null)])]

/-- As `runNoVideos`, but with a present `videos` object whose `links` list
is empty. -/
def runEmptyLinks : Json :=
  Json.obj [("run", Json.obj
    [("players", Json.arr [Json.obj [("name", Json.str "Bob")]]),
     ("times", Json.obj [("primary_t", Json.num 42)]),
     ("videos", Json.obj [("links", Json.arr [])])])]

/-- Attempt stream: every attempt is throttled with an unparseable
`Retry-After` header `soon`. -/
def evThrottleBad : Nat → HttpEvent :=
  fun _ => HttpEvent.resp 429 (some "soon") none

/-- Attempt stream: every attempt is throttled with `Retry-After: abc`. -/
def evThrottleAbc : Nat → HttpEvent :=
  fun _ => HttpEvent.resp 429 (some "abc") none

/-- Attempt stream: every attempt is throttled without a `Retry-After`
header. -/
def evThrottleNoHeader : Nat → HttpEvent :=
  fun _ => HttpEvent.resp 429 none none

/-- Attempt stream: every attempt is throttled with `Retry-After: 2`. -/
def evThrottleTwo : Nat → HttpEvent :=
  fun _ => HttpEvent.resp 429 (some "2") none

/-- Attempt stream: a 200 response whose body fails JSON decoding. -/
def evBadJson : Nat → HttpEvent :=
  fun _ => HttpEvent.resp 200 none none

/-- Attempt stream: a 404 response on every attempt. -/
def ev404 : Nat → HttpEvent :=
  fun _ => HttpEvent.resp 404 none none

/-- Attempt stream: a 500 response on every attempt. -/
def ev500 : Nat → HttpEvent :=
  fun _ => HttpEvent.resp 500 none none

/-- Attempt stream: `requests.get` raises a transport exception. -/
def evTransport : Nat → HttpEvent :=
  fun _ => HttpEvent.raiseTransport

/-- The inner `run["run"]` object of `runNoVideos`. -/
def rNoVideos : Json :=
  Json.obj [("players", Json.arr [Json.obj [("name", Json.str "Bob")]]),
    ("times", Json.obj [("primary_t", Json.num 42)])]

/-- The inner `run["run"]` object of `runNullVideos`. -/
def rNullVideos : Json :=
  Json.obj [("players", Json.arr [Json.obj [("name", Json.str "Bob")]]),
    ("times", Json.obj [("primary_t", Json.num 42)]),
    ("videos", Json.null)]

/-- The inner `run["run"]` object of `runEmptyLinks`. -/
def rEmptyLinks : Json :=
  Json.obj [("players", Json.arr [Json.obj [("name", Json.str "Bob")]]),
    ("times", Json.obj [("primary_t", Json.num 42)]),
    ("videos", Json.obj [("links", Json.arr [])])]

/-- The entry `runTop` normalizes to (its embedded player has no `name`
field, so the bot presents `Unknown`). -/
def entryTop : RunEntry :=
  ⟨1, Json.str "Unknown", Json.num 100, Json.str "vid1"⟩

theorem fetchGo_requests_le (ev : Nat → HttpEvent) :
    ∀ n k, (fetchGo ev n k).requests ≤ n := by
  intro n
  induction n with
  | zero => intro k; simp [fetchGo]
  | succ m ih =>
    intro k
    simp only [fetchGo]
    cases ev k with
    | raiseTransport => simp
    | resp status ra body =>
      dsimp only
      by_cases h200 : status = 200
      · rw [if_pos h200]
        cases body <;> simp
      · rw [if_neg h200]
        by_cases h429 : status = 429
        · rw [if_pos h429]
          cases ra with
          | none =>
            have := ih (k+1)
            simp
            omega
          | some s =>
            dsimp only
            cases hp : pyToInt? s with
            | none => simp
            | some v =>
              dsimp only
              by_cases hv : v < 0
              · rw [if_pos hv]; simp
              · rw [if_neg hv]
                have := ih (k+1)
                simp
                omega
        · rw [if_neg h429]; simp

theorem fetchGo_requests_pos (ev : Nat → HttpEvent) (n k : Nat) :
    1 ≤ (fetchGo ev (n+1) k).requests := by
  simp only [fetchGo]
  cases ev k with
  | raiseTransport => simp
  | resp status ra body =>
    dsimp only
    by_cases h200 : status = 200
    · rw [if_pos h200]; cases body <;> simp
    · rw [if_neg h200]
      by_cases h429 : status = 429
      · rw [if_pos h429]
        cases ra with
        | none => simp
        | some s =>
          dsimp only
          cases hp : pyToInt? s with
          | none => simp
          | some v =>
            dsimp only
            by_cases hv : v < 0
            · rw [if_pos hv]
            · rw [if_neg hv]; simp
      · rw [if_neg h429]

theorem fetch_requests_le_three (ev : Nat → HttpEvent) :
    (fetch_data_with_retry ev).requests ≤ 3 :=
  fetchGo_requests_le ev 3 0

theorem fetch_requests_pos (ev : Nat → HttpEvent) :
    1 ≤ (fetch_data_with_retry ev).requests :=
  fetchGo_requests_pos ev 2 0

theorem fetchGo_clean_none (ev : Nat → HttpEvent) :
    ∀ n k, (∀ j, j < n → cleanNon200 (ev (k + j)) = true) →
      (fetchGo ev n k).result = Except.ok none := by
  intro n
  induction n with
  | zero => intro k _; rfl
  | succ m ih =>
    intro k H
    have h0 : cleanNon200 (ev k) = true := by
      have := H 0 (Nat.succ_pos m)
      simpa using this
    cases hek : ev k with
    | raiseTransport => rw [hek] at h0; simp [cleanNon200] at h0
    | resp status ra body =>
      rw [hek] at h0
      simp only [cleanNon200, Bool.and_eq_true, Bool.or_eq_true,
        Bool.not_eq_true', beq_eq_false_iff_ne, ne_eq] at h0
      obtain ⟨hs200, hrest⟩ := h0
      have IH : (fetchGo ev m (k+1)).result = Except.ok none := by
        apply ih
        intro j hj
        have hH := H (j+1) (by omega)
        have e : k + (j+1) = (k+1) + j := by omega
        rwa [e] at hH
      simp only [fetchGo, hek]
      rw [if_neg hs200]
      by_cases h429 : status = 429
      · rw [if_pos h429]
        have hra : raOk ra = true := by
          rcases hrest with h | h
          · exact absurd h429 h
          · exact h
        cases ra with
        | none => exact IH
        | some s =>
          simp only [raOk] at hra
          cases hp : pyToInt? s with
          | none => rw [hp] at hra; simp at hra
          | some v =>
            rw [hp] at hra
            have hv : ¬ v < 0 := by
              simp only [decide_eq_true_eq] at hra
              omega
            dsimp only
            rw [hp]
            dsimp only
            rw [if_neg hv]
            exact IH
      · rw [if_neg h429]

theorem fetchCategoriesAfter_snd (tr : FetchTrace) :
    (fetchCategoriesAfter tr).2 = tr.requests := by
  unfold fetchCategoriesAfter
  repeat' split
  all_goals rfl

theorem collectCatIds_mono (net : String → Nat → HttpEvent) (game_id : String) :
    ∀ cats acc n, n ≤ (collectCatIds net game_id cats acc n).2 := by
  intro cats
  induction cats with
  | nil => intro acc n; exact Nat.le_refl n
  | cons cat rest ih =>
    intro acc n
    simp only [collectCatIds]
    split
    · exact Nat.le_refl n
    · split
      · simp
      · split
        · exact le_trans (Nat.le_add_right _ _) (ih _ _)
        · split
          · simp
          · split
            · simp
            · split
              · simp
              · split
                · simp
                · exact le_trans (Nat.le_add_right _ _) (ih _ _)

theorem resolveNames_mono (net : String → Nat → HttpEvent) :
    ∀ ids acc n, n ≤ (resolveNames net ids acc n).2 := by
  intro ids
  induction ids with
  | nil => intro acc n; exact Nat.le_refl n
  | cons rid rest ih =>
    intro acc n
    simp only [resolveNames]
    split
    · simp
    · split
      · exact le_trans (Nat.le_add_right _ _) (ih _ _)
      · split
        · simp
        · split
          · simp
          · split
            · simp
            · exact le_trans (Nat.le_add_right _ _) (ih _ _)

theorem runnersAfter_snd_ge (net : String → Nat → HttpEvent) (game_id : String)
    (tr : FetchTrace) : tr.requests ≤ (runnersAfter net game_id tr).2 := by
  unfold runnersAfter
  split
  · exact Nat.le_refl _
  · split
    · exact Nat.le_refl _
    · split
      · exact Nat.le_refl _
      · split
        · exact Nat.le_refl _
        · rename_i odata hfalsy cats hcats catList hiter
          split
          · rename_i n2 hpair
            have h1 := collectCatIds_mono net game_id catList [] tr.requests
            rw [hpair] at h1
            exact h1
          · rename_i ids n2 hpair
            have h1 := collectCatIds_mono net game_id catList [] tr.requests
            rw [hpair] at h1
            split
            · rename_i n3 hpair2
              have h2 := resolveNames_mono net ids [] n2
              rw [hpair2] at h2
              exact le_trans h1 h2
            · rename_i names n3 hpair2
              have h2 := resolveNames_mono net ids [] n2
              rw [hpair2] at h2
              split
              · exact le_trans h1 h2
              · exact le_trans h1 h2

theorem buildEntries_spec :
    ∀ (l : List Json) (i : Nat) (es : List RunEntry),
      buildEntries i l = Except.ok es →
      es.length = l.length ∧
        ∀ m (hm : m < es.length), (es.get ⟨m, hm⟩).rank = i + m + 1 := by
  intro l
  induction l with
  | nil =>
    intro i es h
    simp only [buildEntries, Except.ok.injEq] at h
    subst h
    refine ⟨rfl, ?_⟩
    intro m hm
    simp at hm
  | cons run rest ih =>
    intro i es h
    simp only [buildEntries] at h
    cases hf : formatRun run with
    | error e => rw [hf] at h; simp at h
    | ok pv =>
      rw [hf] at h
      dsimp only at h
      cases hb : buildEntries (i+1) rest with
      | error e => rw [hb] at h; simp at h
      | ok es2 =>
        rw [hb] at h
        dsimp only at h
        simp only [Except.ok.injEq] at h
        subst h
        obtain ⟨hl, hr⟩ := ih (i+1) es2 hb
        refine ⟨by simp [hl], ?_⟩
        intro m hm
        cases m with
        | zero => rfl
        | succ m2 =>
          have hm2 : m2 < es2.length := by
            simpa using hm
          have hx := hr m2 hm2
          have e1 : ((⟨i + 1, pv.1, pv.2.1, pv.2.2⟩ : RunEntry) :: es2).get
              ⟨m2 + 1, hm⟩ = es2.get ⟨m2, hm2⟩ := rfl
          rw [e1, hx]
          omega

theorem distinct_append (s : List Json) (x : Json)
    (hs : distinctScalars s = true)
    (hx : s.all (fun y => !scalarEq y x) = true) :
    distinctScalars (s ++ [x]) = true := by
  induction s with
  | nil => rfl
  | cons y rest ih =>
    simp only [List.all_cons, Bool.and_eq_true] at hx
    simp only [distinctScalars, Bool.and_eq_true] at hs
    simp only [List.cons_append, distinctScalars, Bool.and_eq_true]
    refine ⟨?_, ih hs.2 hx.2⟩
    have e2 : rest.append [x] = rest ++ [x] := rfl
    rw [e2, List.all_append]
    simp [hs.1, hx.1]

theorem setAdd_distinct (s : List Json) (x : Json) (t : List Json)
    (h : setAdd s x = Except.ok t) (hs : distinctScalars s = true) :
    distinctScalars t = true := by
  have key : (if s.any (fun y => scalarEq y x) then s else s ++ [x]) = t →
      distinctScalars t = true := by
    intro ht
    subst ht
    by_cases ha : s.any (fun y => scalarEq y x) = true
    · rw [if_pos ha]; exact hs
    · rw [if_neg ha]
      refine distinct_append s x hs ?_
      rw [List.all_eq_true]
      intro y hy
      have hyx : scalarEq y x = false := by
        rcases Bool.eq_false_or_eq_true (scalarEq y x) with hh | hh
        · exact absurd (List.any_eq_true.mpr ⟨y, hy, hh⟩) ha
        · exact hh
      simp [hyx]
  cases x with
  | arr xs => simp [setAdd] at h
  | obj fs => simp [setAdd] at h
  | null =>
    simp only [setAdd, Except.ok.injEq] at h
    exact key h
  | b bv =>
    simp only [setAdd, Except.ok.injEq] at h
    exact key h
  | num nv =>
    simp only [setAdd, Except.ok.injEq] at h
    exact key h
  | str sv =>
    simp only [setAdd, Except.ok.injEq] at h
    exact key h

theorem addPlayers_distinct :
    ∀ (l acc r : List Json), addPlayers l acc = Except.ok r →
      distinctScalars acc = true → distinctScalars r = true := by
  intro l
  induction l with
  | nil =>
    intro acc r h hacc
    simp only [addPlayers, Except.ok.injEq] at h
    subst h
    exact hacc
  | cons p rest ih =>
    intro acc r h hacc
    simp only [addPlayers] at h
    cases hrel : pyIndexS p "rel" with
    | error e => rw [hrel] at h; simp at h
    | ok rel =>
      rw [hrel] at h
      dsimp only at h
      by_cases hu : pyEqStr rel "user" = true
      · rw [if_pos hu] at h
        cases hid : pyIndexS p "id" with
        | error e => rw [hid] at h; simp at h
        | ok i =>
          rw [hid] at h
          dsimp only at h
          cases hsa : setAdd acc i with
          | error e => rw [hsa] at h; simp at h
          | ok acc2 =>
            rw [hsa] at h
            dsimp only at h
            exact ih acc2 r h (setAdd_distinct acc i acc2 hsa hacc)
      · rw [if_neg hu] at h
        exact ih acc r h hacc

theorem collectFromRuns_distinct :
    ∀ (l acc r : List Json), collectFromRuns l acc = Except.ok r →
      distinctScalars acc = true → distinctScalars r = true := by
  intro l
  induction l with
  | nil =>
    intro acc r h hacc
    simp only [collectFromRuns, Except.ok.injEq] at h
    subst h
    exact hacc
  | cons run rest ih =>
    intro acc r h hacc
    simp only [collectFromRuns] at h
    cases h1 : pyIndexS run "run" with
    | error e => rw [h1] at h; simp at h
    | ok rj =>
      rw [h1] at h
      dsimp only at h
      cases h2 : pyIndexS rj "players" with
      | error e => rw [h2] at h; simp at h
      | ok players =>
        rw [h2] at h
        dsimp only at h
        cases h3 : pyIter players with
        | error e => rw [h3] at h; simp at h
        | ok pl =>
          rw [h3] at h
          dsimp only at h
          cases h4 : addPlayers pl acc with
          | error e => rw [h4] at h; simp at h
          | ok acc2 =>
            rw [h4] at h
            dsimp only at h
            exact ih acc2 r h (addPlayers_distinct pl acc acc2 h4 hacc)

theorem collectCatIds_distinct (net : String → Nat → HttpEvent)
    (game_id : String) :
    ∀ cats acc n r n2,
      collectCatIds net game_id cats acc n = (Except.ok r, n2) →
      distinctScalars acc = true → distinctScalars r = true := by
  intro cats
  induction cats with
  | nil =>
    intro acc n r n2 h hacc
    simp only [collectCatIds, Prod.mk.injEq, Except.ok.injEq] at h
    obtain ⟨h1, h2⟩ := h
    subst h1
    exact hacc
  | cons cat rest ih =>
    intro acc n r n2 h hacc
    simp only [collectCatIds] at h
    cases h1 : pyIndexS cat "id" with
    | error e => rw [h1] at h; simp at h
    | ok cid =>
      rw [h1] at h
      dsimp only at h
      cases h2 : (fetch_data_with_retry (net (SPEEDRUN_API_URL ++
          "/leaderboards/" ++ game_id ++ "/category/" ++ pyStr cid))).result with
      | error e => rw [h2] at h; simp at h
      | ok old =>
        rw [h2] at h
        dsimp only at h
        by_cases hf : pyFalsy (jOfOpt old) = true
        · rw [if_pos hf] at h
          exact ih acc _ r n2 h hacc
        · rw [if_neg hf] at h
          cases h3 : pyIndexS (jOfOpt old) "data" with
          | error e => rw [h3] at h; simp at h
          | ok d =>
            rw [h3] at h
            dsimp only at h
            cases h4 : pyIndexS d "runs" with
            | error e => rw [h4] at h; simp at h
            | ok runs =>
              rw [h4] at h
              dsimp only at h
              cases h5 : pyIter runs with
              | error e => rw [h5] at h; simp at h
              | ok runList =>
                rw [h5] at h
                dsimp only at h
                cases h6 : collectFromRuns runList acc with
                | error e => rw [h6] at h; simp at h
                | ok acc2 =>
                  rw [h6] at h
                  dsimp only at h
                  exact ih acc2 _ r n2 h
                    (collectFromRuns_distinct runList acc acc2 h6 hacc)

theorem profileRuns_spec (net : String → Nat → HttpEvent) :
    ∀ runs n out n2, profileRuns net runs n = (Except.ok out, n2) →
      out.length = runs.length ∧ n + runs.length ≤ n2 := by
  intro runs
  induction runs with
  | nil =>
    intro n out n2 h
    simp only [profileRuns, Prod.mk.injEq, Except.ok.injEq] at h
    obtain ⟨h1, h2⟩ := h
    subst h1
    subst h2
    exact ⟨rfl, by simp⟩
  | cons run rest ih =>
    intro n out n2 h
    simp only [profileRuns] at h
    cases h1 : pyIndexS run "game" with
    | error e => rw [h1] at h; simp at h
    | ok gid =>
      rw [h1] at h
      dsimp only at h
      cases h2 : pyIndexS run "category" with
      | error e => rw [h2] at h; simp at h
      | ok cid =>
        rw [h2] at h
        dsimp only at h
        have hreq := fetch_requests_pos (net (SPEEDRUN_API_URL ++
          "/categories/" ++ pyStr cid))
        cases h3 : (fetch_data_with_retry (net (SPEEDRUN_API_URL ++
            "/categories/" ++ pyStr cid))).result with
        | error e => rw [h3] at h; simp at h
        | ok ocd =>
          rw [h3] at h
          dsimp only at h
          cases h4 : categoryNameOf (jOfOpt ocd) with
          | error e => rw [h4] at h; simp at h
          | ok cname =>
            rw [h4] at h
            dsimp only at h
            cases h5 : pyIndexS run "times" with
            | error e => rw [h5] at h; simp at h
            | ok times =>
              rw [h5] at h
              dsimp only at h
              cases h6 : pyIndexS times "primary_t" with
              | error e => rw [h6] at h; simp at h
              | ok t =>
                rw [h6] at h
                dsimp only at h
                cases h7 : profileVideo run with
                | error e => rw [h7] at h; simp at h
                | ok v =>
                  rw [h7] at h
                  dsimp only at h
                  rcases h8 : profileRuns net rest (n +
                      (fetch_data_with_retry (net (SPEEDRUN_API_URL ++
                        "/categories/" ++ pyStr cid))).requests) with ⟨res2, n3⟩
                  rw [h8] at h
                  cases res2 with
                  | error e => simp at h
                  | ok es =>
                    dsimp only at h
                    simp only [Prod.mk.injEq, Except.ok.injEq] at h
                    obtain ⟨hout, hn⟩ := h
                    subst hout
                    subst hn
                    obtain ⟨hlen, hle⟩ := ih _ es n3 h8
                    constructor
                    · simp [hlen]
                    · simp only [List.length_cons]
                      omega

/-- Claim C1 (corrected).  The claim asserts `categoriesFor` caches per game
so that at most one network call is made across any number of calls.
`bot.py` defines no category cache: `fetch_categories` performs a fresh
fetch of the category-listing endpoint on every call, so every call issues
at least one HTTP request and two sequential calls issue at least two. -/
theorem C1_categories_fetch_every_call (net : String → Nat → HttpEvent)
    (game_id : String) :
    1 ≤ (fetch_categories net game_id).2 ∧
      2 ≤ fetch_categories_twice_requests net game_id := by
  have h1 : 1 ≤ (fetch_categories net game_id).2 := by
    unfold fetch_categories
    rw [fetchCategoriesAfter_snd]
    exact fetch_requests_pos _
  refine ⟨h1, ?_⟩
  unfold fetch_categories_twice_requests
  omega

/-- Claim C1, counterexample.  Under an oracle that answers the
category-listing endpoint successfully on the first attempt, one
`fetch_categories` call issues 1 HTTP request and two sequential calls issue
2 in total — contradicting "at most one network call ... across any number
of calls for that game". -/
theorem C1_cx_categories_not_cached :
    (fetch_categories netCat "mc2").2 = 1 ∧
      fetch_categories_twice_requests netCat "mc2" = 2 :=
  ⟨rfl, rfl⟩

/-- Claim C2 (corrected).  The claim asserts `rosterFor` is memoized so a
second sequential call makes zero network calls.  `bot.py` keeps no roster
cache and `runners` reads no mutable state: every call with a valid game key
issues at least one HTTP request, so two sequential calls issue at least two
(the second call, being a call of the same pure code on unchanged upstream
state, does return an identical roster — but it re-issues every fetch). -/
theorem C2_roster_refetches_each_call (net : String → Nat → HttpEvent)
    (game game_id : String)
    (h : GAME_IDS.lookup (pyLower game) = some game_id) :
    1 ≤ (runners net game).2 ∧ 2 ≤ runnersTwiceRequests net game := by
  have h1 : 1 ≤ (runners net game).2 := by
    simp only [runners, h]
    unfold runnersCore
    exact le_trans (fetch_requests_pos _) (runnersAfter_snd_ge net game_id _)
  refine ⟨h1, ?_⟩
  unfold runnersTwiceRequests
  omega

/-- Claim C2, witness for the amended statement at the concrete oracle
`net2` and game key `mc2`. -/
theorem C2_roster_refetches_each_call_witness :
    1 ≤ (runners net2 "mc2").2 ∧ 2 ≤ runnersTwiceRequests net2 "mc2" :=
  C2_roster_refetches_each_call net2 "mc2" "mc2" rfl

/-- Claim C2, counterexample.  Under `net2` (one category, one run by one
user, every fetch succeeding on its first attempt) a `runners("mc2")` call
issues 3 HTTP requests and returns the roster `[Alice]`; two sequential
calls issue 6 requests in total, not 3 as the claimed zero-network-call
memoization of the second call would give. -/
theorem C2_cx_roster_not_memoized :
    (runners net2 "mc2").2 = 3 ∧ runnersTwiceRequests net2 "mc2" = 6 ∧
      (runners net2 "mc2").1 = Except.ok (some [Json.str "Alice"]) :=
  ⟨rfl, rfl, rfl⟩

/-- Claim C3 (corrected).  For a throttling response the loop sleeps the
parsed `Retry-After` value (then retries the same URL), and sleeps the
default 5 seconds when the header is absent; but — contrary to the claim —
a present, non-integer header is not replaced by the default: `int(...)`
raises `ValueError` and the call fails. -/
theorem C3_retry_after_amended (ev : Nat → HttpEvent) (n k : Nat)
    (ra : Option String) (b : Option Json)
    (h : ev k = HttpEvent.resp 429 ra b) :
    (ra = none → fetchGo ev (n+1) k =
      ⟨(fetchGo ev n (k+1)).result, (fetchGo ev n (k+1)).requests + 1,
        (5 : Int) :: (fetchGo ev n (k+1)).sleeps⟩)
    ∧ (∀ s v, ra = some s → pyToInt? s = some v → 0 ≤ v →
      fetchGo ev (n+1) k =
        ⟨(fetchGo ev n (k+1)).result, (fetchGo ev n (k+1)).requests + 1,
          v :: (fetchGo ev n (k+1)).sleeps⟩)
    ∧ (∀ s, ra = some s → pyToInt? s = none →
      fetchGo ev (n+1) k = ⟨Except.error PyExn.valueError, 1, []⟩) := by
  refine ⟨?_, ?_, ?_⟩
  · intro hra
    subst hra
    simp only [fetchGo, h]
    norm_num
  · intro s v hra hp hv
    subst hra
    simp only [fetchGo, h]
    rw [hp]
    dsimp only
    rw [if_neg (show ¬ v < 0 by omega)]
    norm_num
  · intro s hra hp
    subst hra
    simp only [fetchGo, h]
    rw [hp]
    norm_num

/-- Claim C3, witness for the amended statement: an absent header sleeps 5
and retries, `Retry-After: 2` sleeps 2 and retries, and `Retry-After: soon`
raises `ValueError`. -/
theorem C3_retry_after_amended_witness :
    fetchGo evThrottleNoHeader 3 0 =
      ⟨(fetchGo evThrottleNoHeader 2 1).result,
        (fetchGo evThrottleNoHeader 2 1).requests + 1,
        (5 : Int) :: (fetchGo evThrottleNoHeader 2 1).sleeps⟩
    ∧ fetchGo evThrottleTwo 3 0 =
      ⟨(fetchGo evThrottleTwo 2 1).result,
        (fetchGo evThrottleTwo 2 1).requests + 1,
        (2 : Int) :: (fetchGo evThrottleTwo 2 1).sleeps⟩
    ∧ fetchGo evThrottleBad 3 0 = ⟨Except.error PyExn.valueError, 1, []⟩ :=
  ⟨(C3_retry_after_amended evThrottleNoHeader 2 0 none none rfl).1 rfl,
   (C3_retry_after_amended evThrottleTwo 2 0 (some "2") none rfl).2.1
     "2" 2 rfl rfl (by decide),
   (C3_retry_after_amended evThrottleBad 2 0 (some "soon") none rfl).2.2
     "soon" rfl rfl⟩

/-- Claim C3, counterexample.  A 429 whose `Retry-After` header is the
non-integer `soon` makes the call raise `ValueError` after one request and
zero sleeps — it does not fall back to the 5-second default. -/
theorem C3_cx_malformed_retry_after_raises :
    fetch_data_with_retry evThrottleBad =
      ⟨Except.error PyExn.valueError, 1, []⟩ :=
  rfl

/-- Claim C4 (corrected).  On a 200 response whose body fails JSON decoding,
`fetch_data_with_retry` does not return a failure value: `response.json()`
raises and the exception escapes the function (modelled as `.error
.jsonDecode`). -/
theorem C4_bad_json_amended (ev : Nat → HttpEvent) (n k : Nat)
    (ra : Option String) (h : ev k = HttpEvent.resp 200 ra none) :
    fetchGo ev (n+1) k = ⟨Except.error PyExn.jsonDecode, 1, []⟩ := by
  simp only [fetchGo, h]
  norm_num

/-- Claim C4, witness for the amended statement. -/
theorem C4_bad_json_amended_witness :
    fetchGo evBadJson 3 0 = ⟨Except.error PyExn.jsonDecode, 1, []⟩ :=
  C4_bad_json_amended evBadJson 2 0 none rfl

/-- Claim C4, counterexample.  A 200 response with an unparseable body makes
the fetch raise (propagate a decode exception) rather than return a
`MalformedResponse` failure value. -/
theorem C4_cx_bad_json_raises :
    fetch_data_with_retry evBadJson =
      ⟨Except.error PyExn.jsonDecode, 1, []⟩ :=
  rfl

/-- Claim C5 (corrected).  On a non-200/non-429 status the loop breaks and
the function returns `None` after a single request — an untyped failure
carrying neither status nor cause; and a transport failure is not converted
to a failure value: the raw exception propagates to the caller. -/
theorem C5_error_handling_amended (ev : Nat → HttpEvent) (n k : Nat) :
    (∀ status ra b, status ≠ 200 → status ≠ 429 →
      ev k = HttpEvent.resp status ra b →
      fetchGo ev (n+1) k = ⟨Except.ok none, 1, []⟩)
    ∧ (ev k = HttpEvent.raiseTransport →
      fetchGo ev (n+1) k = ⟨Except.error PyExn.transport, 1, []⟩) := by
  constructor
  · intro status ra b h200 h429 h
    simp only [fetchGo, h]
    rw [if_neg h200, if_neg h429]
  · intro h
    simp only [fetchGo, h]

/-- Claim C5, witness for the amended statement at a 404 response and a
transport failure. -/
theorem C5_error_handling_amended_witness :
    fetchGo ev404 3 0 = ⟨Except.ok none, 1, []⟩ ∧
      fetchGo evTransport 3 0 = ⟨Except.error PyExn.transport, 1, []⟩ :=
  ⟨(C5_error_handling_amended ev404 2 0).1 404 none none
     (by decide) (by decide) rfl,
   (C5_error_handling_amended evTransport 2 0).2 rfl⟩

/-- Claim C5, counterexample.  A transport failure propagates as a raw
exception (not a typed failure value), and a 404 is indistinguishable from a
500 in the returned value (`None` both times), so the return carries no
status or cause. -/
theorem C5_cx_error_handling :
    fetch_data_with_retry evTransport =
      ⟨Except.error PyExn.transport, 1, []⟩
    ∧ fetch_data_with_retry ev404 = ⟨Except.ok none, 1, []⟩
    ∧ fetch_data_with_retry ev500 = ⟨Except.ok none, 1, []⟩ :=
  ⟨rfl, rfl, rfl⟩

/-- Claim C6 (corrected).  Deduplication in `runners` happens on upstream
identifiers (a `set` of ids, so a runner appearing in several categories
contributes once, and only players whose `rel` is `user` contribute), but
the returned roster is a list of display names and two distinct accounts
sharing a display name produce a duplicated name.  This theorem proves the
part that holds: the collected identifier list is duplicate-free. -/
theorem C6_ids_deduplicated (net : String → Nat → HttpEvent)
    (game_id : String) (cats : List Json) (n : Nat) (ids : List Json)
    (n2 : Nat)
    (h : collectCatIds net game_id cats [] n = (Except.ok ids, n2)) :
    distinctScalars ids = true :=
  collectCatIds_distinct net game_id cats [] n ids n2 h rfl

/-- Claim C6, witness: under `netC6` the category loop collects exactly the
duplicate-free id list `[u1, u2]` (the guest is excluded, and `u1`, who runs
in two runs, appears once). -/
theorem C6_ids_deduplicated_witness :
    distinctScalars [Json.str "u1", Json.str "u2"] = true :=
  C6_ids_deduplicated netC6 "mc2" [Json.obj [("id", Json.str "c1")]] 0
    [Json.str "u1", Json.str "u2"] 1 rfl

/-- Claim C6, counterexample.  Under `netC6`, where the two distinct
accounts `u1` and `u2` are both displayed as `Alice`, the roster returned by
`runners` is `[Alice, Alice]` — it does contain duplicate display names. -/
theorem C6_cx_duplicate_display_names :
    (runners netC6 "mc2").1 =
      Except.ok (some [Json.str "Alice", Json.str "Alice"]) ∧
    distinctScalars [Json.str "Alice", Json.str "Alice"] = false :=
  ⟨rfl, rfl⟩

/-- Claim C7 (confirmed).  The `speedrun` command slices the upstream run
list to `top_count` entries (1, or 5 for `top5`) before presenting, so at
most `top_count` entries are returned, and entry `i` (0-based) is presented
with rank `i + 1`, i.e. ranks ascend following the upstream leaderboard
order. -/
theorem C7_top_runs_count_and_rank (runs : List Json) (c : Nat)
    (es : List RunEntry) (h : speedrunEntries runs c = Except.ok es) :
    es.length ≤ c ∧
      ∀ m (hm : m < es.length), (es.get ⟨m, hm⟩).rank = m + 1 := by
  obtain ⟨hl, hr⟩ := buildEntries_spec (runs.take c) 0 es h
  constructor
  · have hmin : es.length = min c runs.length := by
      rw [hl, List.length_take]
    omega
  · intro m hm
    have := hr m hm
    simpa using this

/-- Claim C7, witness: for a two-run upstream list and `top_count = 1`
exactly one entry is produced, carrying rank 1. -/
theorem C7_top_runs_count_and_rank_witness :
    speedrunEntries [runTop, runNoVideos] 1 = Except.ok [entryTop] ∧
      [entryTop].length ≤ 1 ∧
      ([entryTop].get ⟨0, Nat.zero_lt_one⟩).rank = 1 :=
  ⟨rfl,
   (C7_top_runs_count_and_rank [runTop, runNoVideos] 1 [entryTop] rfl).1,
   (C7_top_runs_count_and_rank [runTop, runNoVideos] 1 [entryTop] rfl).2
     0 Nat.zero_lt_one⟩

/-- Claim C8 (corrected).  Name normalization is as claimed (`.get` with the
`Unknown` default) and the time is the upstream `primary_t` value, but the
video fallback is *not* total: `No video` is produced only when the `videos`
key is entirely absent; a present-but-`null` `videos` field raises
`AttributeError` and a present `links` list that is empty raises
`IndexError` — both crash the command instead of falling back. -/
theorem C8_normalization_amended (run r players p0 nm times t : Json)
    (h1 : pyIndexS run "run" = Except.ok r)
    (h2 : pyIndexS r "players" = Except.ok players)
    (h3 : pyIndexN players 0 = Except.ok p0)
    (h4 : pyGet p0 "name" (Json.str "Unknown") = Except.ok nm)
    (h5 : pyIndexS r "times" = Except.ok times)
    (h6 : pyIndexS times "primary_t" = Except.ok t) :
    (pyGet r "videos" (Json.obj []) = Except.ok (Json.obj []) →
      formatRun run = Except.ok (nm, t, Json.str "No video"))
    ∧ (pyGet r "videos" (Json.obj []) = Except.ok Json.null →
      formatRun run = Except.error PyExn.attributeError)
    ∧ (∀ v, pyGet r "videos" (Json.obj []) = Except.ok v →
      pyGet v "links" (Json.arr [Json.obj [("uri", Json.str "No video")]]) =
        Except.ok (Json.arr []) →
      formatRun run = Except.error PyExn.indexError) := by
  refine ⟨?_, ?_, ?_⟩
  · intro hv
    simp only [formatRun, h1, h2, h3, h4, h5, h6, hv]
    rfl
  · intro hv
    simp only [formatRun, h1, h2, h3, h4, h5, h6, hv]
    rfl
  · intro v hv hl
    simp only [formatRun, h1, h2, h3, h4, h5, h6, hv, hl]
    rfl

/-- Claim C8, witness for the amended statement on the three concrete runs:
`videos` absent yields the `No video` fallback (with the player name taken
from the upstream `name` field), `videos: null` raises `AttributeError`,
and an empty `links` list raises `IndexError`. -/
theorem C8_normalization_amended_witness :
    formatRun runNoVideos =
      Except.ok (Json.str "Bob", Json.num 42, Json.str "No video")
    ∧ formatRun runNullVideos = Except.error PyExn.attributeError
    ∧ formatRun runEmptyLinks = Except.error PyExn.indexError :=
  ⟨(C8_normalization_amended runNoVideos rNoVideos
      (Json.arr [Json.obj [("name", Json.str "Bob")]])
      (Json.obj [("name", Json.str "Bob")]) (Json.str "Bob")
      (Json.obj [("primary_t", Json.num 42)]) (Json.num 42)
      rfl rfl rfl rfl rfl rfl).1 rfl,
   (C8_normalization_amended runNullVideos rNullVideos
      (Json.arr [Json.obj [("name", Json.str "Bob")]])
      (Json.obj [("name", Json.str "Bob")]) (Json.str "Bob")
      (Json.obj [("primary_t", Json.num 42)]) (Json.num 42)
      rfl rfl rfl rfl rfl rfl).2.1 rfl,
   (C8_normalization_amended runEmptyLinks rEmptyLinks
      (Json.arr [Json.obj [("name", Json.str "Bob")]])
      (Json.obj [("name", Json.str "Bob")]) (Json.str "Bob")
      (Json.obj [("primary_t", Json.num 42)]) (Json.num 42)
      rfl rfl rfl rfl rfl rfl).2.2
     (Json.obj [("links", Json.arr [])]) rfl rfl⟩

/-- Claim C8, counterexample.  A run whose `videos` field is present but
`null` crashes the normalization with `AttributeError`, and a run whose
`links` list is empty crashes it with `IndexError` — the claim asserts both
fall back to `No video` without crashing. -/
theorem C8_cx_video_normalization_crashes :
    formatRun runNullVideos = Except.error PyExn.attributeError ∧
      formatRun runEmptyLinks = Except.error PyExn.indexError :=
  ⟨rfl, rfl⟩

/-- Claim C9 (corrected).  The profile loop resolves the game via the static
table (falling back to `Unknown Game` when the id is not in the table) and
an unfetchable category to `Unknown Category`, and drops no run; but it
performs one category fetch *per run*, not per distinct category identifier:
a successful pass issues at least one HTTP request for every run, including
runs that share a category id. -/
theorem C9_profile_amended (net : String → Nat → HttpEvent) :
    (∀ runs n out n2, profileRuns net runs n = (Except.ok out, n2) →
      out.length = runs.length ∧ n + runs.length ≤ n2)
    ∧ (∀ gid, GAME_IDS.find? (fun p => pyEqStr gid p.2) = none →
      gameNameOf gid = "Unknown Game")
    ∧ (∀ cd, pyFalsy cd = true →
      categoryNameOf cd = Except.ok (Json.str "Unknown Category")) := by
  refine ⟨profileRuns_spec net, ?_, ?_⟩
  · intro gid hg
    unfold gameNameOf
    rw [hg]
  · intro cd hc
    unfold categoryNameOf
    rw [if_pos hc]

/-- Claim C9, witness for the amended statement: two runs sharing category
`c1` produce two entries and two requests under `netC9`; an id absent from
the table is labeled `Unknown Game`; a falsy category document is labeled
`Unknown Category`. -/
theorem C9_profile_amended_witness :
    ([entryC9, entryC9].length = 2 ∧ 0 + 2 ≤ 2)
    ∧ gameNameOf (Json.str "nogame") = "Unknown Game"
    ∧ categoryNameOf Json.null = Except.ok (Json.str "Unknown Category") :=
  ⟨(C9_profile_amended netC9).1 [runC9, runC9] 0 [entryC9, entryC9] 2 rfl,
   (C9_profile_amended netC9).2.1 (Json.str "nogame") rfl,
   (C9_profile_amended netC9).2.2 Json.null rfl⟩

/-- Claim C9, counterexample.  Two runs sharing the single distinct category
id `c1` cause two `categories/c1` fetches (2 HTTP requests under `netC9`,
where every fetch succeeds on its first attempt), not the single lookup per
distinct identifier the claim asserts. -/
theorem C9_cx_category_fetch_per_run :
    profileRuns netC9 [runC9, runC9] 0 =
      (Except.ok [entryC9, entryC9], 2) :=
  rfl

/-- Claim C10 (corrected).  `fetch_data_with_retry` issues at most 3 HTTP
requests for any response sequence (throttling retries spend the same
3-attempt budget) and, whenever the attempts it makes all yield non-200
responses whose throttling headers (if any) are absent or non-negative
integers, it returns `None`; but — contrary to the claim — when a 429
carries a malformed `Retry-After` header the function raises `ValueError`
instead of returning `None`. -/
theorem C10_retry_budget_amended (ev : Nat → HttpEvent) :
    (fetch_data_with_retry ev).requests ≤ 3 ∧
      ((∀ j, j < 3 → cleanNon200 (ev j) = true) →
        (fetch_data_with_retry ev).result = Except.ok none) := by
  refine ⟨fetch_requests_le_three ev, ?_⟩
  intro H
  apply fetchGo_clean_none ev 3 0
  intro j hj
  simpa using H j hj

/-- Claim C10, witness: three throttling responses without a header exhaust
the budget (3 requests) and the call returns `None`. -/
theorem C10_retry_budget_amended_witness :
    (fetch_data_with_retry evThrottleNoHeader).requests ≤ 3 ∧
      (fetch_data_with_retry evThrottleNoHeader).result = Except.ok none :=
  ⟨(C10_retry_budget_amended evThrottleNoHeader).1,
   (C10_retry_budget_amended evThrottleNoHeader).2 (fun _ _ => rfl)⟩

/-- Claim C10, counterexample.  With a first attempt answered by a 429
carrying `Retry-After: abc`, no attempt yields a 200, yet the function does
not return `None`: it raises `ValueError` after a single request. -/
theorem C10_cx_malformed_retry_after_not_none :
    fetch_data_with_retry evThrottleAbc =
      ⟨Except.error PyExn.valueError, 1, []⟩ :=
  rfl

end SpeedrunBot
